import Mathlib

/-!
A shallow embedding of the fetch-parse-normalize-cache pipeline of
`src/main.py` (VPS resource monitor), together with proofs about its
behaviour.

Modelling conventions:
* Python floats are modelled as `ℚ` (all values arising here are exact
  decimal/integer quantities, so rational arithmetic is faithful up to
  float rounding, which the properties tolerate).
* `time.time()` values are `ℚ` inputs; `int(time.time())` is a `ℤ` input.
* Fallible Python code (exceptions) is modelled with `Except String`,
  the string being `str(e)` of the raised exception.
* The three compiled regular expressions `OUTER_PATTERN`, `INNER_PATTERN`
  and `SIMPLE_PATTERN` are concatenations of literal characters and lazy
  stars of single-character classes; `mtch` below is a backtracking
  matcher for exactly this fragment (lazy star: prefer the shortest
  repetition, extend on failure), with named-group capture.
-/

namespace VpsMonitor

/-- The single-quote character, used when rendering Python exception
messages such as `str(KeyError("resources"))`. -/
def sq : String := String.mk [Char.ofNat 39]

/-- Character classes occurring in the three patterns: `.` (any character
except a newline), `\d` (a digit), `\w` (a word character). -/
inductive Cls
  | dot
  | digit
  | word
deriving DecidableEq, Repr

/-- Which characters a class matches.  (`\d`/`\w` are used here on ASCII
input; the embedding uses the ASCII reading.) -/
def clsMatch : Cls → Char → Bool
  | .dot, c => c != '\n'
  | .digit, c => c.isDigit
  | .word, c => c.isAlphanum || c == '_'

/-- One item of a pattern: a literal character, or a lazy star of a
character class, optionally capturing into a named group.  `acc` is the
(reversed) run of characters the star has consumed so far; patterns are
written with `acc = []`. -/
inductive Item
  | lit (c : Char)
  | star (g : Option String) (cls : Cls) (acc : List Char)
deriving DecidableEq, Repr

/-- Record a finished star's captured run (if the star is a named group). -/
def addCaps (g : Option String) (acc : List Char) (caps : List (String × String)) :
    List (String × String) :=
  match g with
  | none => caps
  | some n => (n, String.mk acc.reverse) :: caps

/-- Backtracking matcher for a concatenation of items against a list of
characters.  Returns the named captures and the unconsumed suffix
(`re.match` semantics: anchored at the start, no end anchor).  A lazy star
first tries the rest of the pattern, and only consumes a further character
of its class when that fails — exactly Python's leftmost preference for
non-greedy quantifiers on this pattern fragment. -/
def mtch : List Item → List Char → Option (List (String × String) × List Char)
  | [], s => some ([], s)
  | .lit _ :: _, [] => none
  | .lit c :: rest, x :: s => if x = c then mtch rest s else none
  | .star g cls acc :: rest, s =>
    let zero := (mtch rest s).map fun p => (addCaps g acc p.1, p.2)
    if zero.isSome then zero
    else
      match s with
      | [] => none
      | x :: s' =>
        if clsMatch cls x then mtch (.star g cls (x :: acc) :: rest) s' else none
termination_by items s => (s.length, items.length)

/-- Pattern `OUTER_PATTERN = (<(?P<type>\w*?)>.*?</\w*?>)` as an item list. -/
def OUTER_ITEMS : List Item :=
  [.lit '<', .star (some "type") .word [], .lit '>', .star none .dot [],
   .lit '<', .lit '/', .star none .word [], .lit '>']

/-- Pattern `INNER_PATTERN` =
`<.*?>(?P<total>\d*?),(?P<used>\d*?),(?P<free>\d*?),(?P<per>\d*?)</.*?>`
as an item list. -/
def INNER_ITEMS : List Item :=
  [.lit '<', .star none .dot [], .lit '>',
   .star (some "total") .digit [], .lit ',',
   .star (some "used") .digit [], .lit ',',
   .star (some "free") .digit [], .lit ',',
   .star (some "per") .digit [],
   .lit '<', .lit '/', .star none .dot [], .lit '>']

/-- Pattern `SIMPLE_PATTERN = <.*?>(?P<string>.*?)</.*?>` as an item list. -/
def SIMPLE_ITEMS : List Item :=
  [.lit '<', .star none .dot [], .lit '>', .star (some "string") .dot [],
   .lit '<', .lit '/', .star none .dot [], .lit '>']

/-- Scanning `OUTER_PATTERN.finditer`: scan left to right, try a match at each
position, and continue after each (non-empty) match.  Each hit is returned
as its captures together with the matched text (`match.group()`).  The
fuel argument is a recursion bound; `findIter` supplies enough fuel for it
never to run out (every step shortens the remaining text). -/
def findIterAux : Nat → List Char → List (List (String × String) × List Char)
  | 0, _ => []
  | fuel + 1, s =>
    match mtch OUTER_ITEMS s with
    | some (caps, rem) =>
      let consumed := s.take (s.length - rem.length)
      if consumed.length = 0 then
        -- a zero-width match: yield it and advance one position
        -- (unreachable for `OUTER_PATTERN`, which always consumes ≥ 5 chars)
        match s with
        | [] => [(caps, consumed)]
        | _ :: s' => (caps, consumed) :: findIterAux fuel s'
      else (caps, consumed) :: findIterAux fuel rem
    | none =>
      match s with
      | [] => []
      | _ :: s' => findIterAux fuel s'

/-- All matches of `OUTER_PATTERN` in a body, in order. -/
def findIter (s : List Char) : List (List (String × String) × List Char) :=
  findIterAux (s.length + 1) s

/-- Lookup `match.groupdict()[k]` of a named group.  On a successful match of
any of the three patterns every named group is present, so the default is
never consulted there. -/
def capGet (caps : List (String × String)) (k : String) : String :=
  ((caps.find? fun p => p.1 = k).map Prod.snd).getD ""

/-! ## Constants and small dict helpers (`RESOURCE_TYPES`, dict semantics) -/

/-- Constant `RESOURCE_TYPES = ["hdd", "bw", "mem"]`. -/
def RESOURCE_TYPES : List String := ["hdd", "bw", "mem"]

/-- Constant `INFO_TYPES = ["hostname", "ipaddress"]`. -/
def INFO_TYPES : List String := ["hostname", "ipaddress"]

/-- Constant `BYTES_TO_GB = 1024 ** 3`. -/
def BYTES_TO_GB : ℚ := 1024 ^ 3

/-- Constant `GB_TO_TB = 1024`. -/
def GB_TO_TB : ℚ := 1024

/-- Constant `CACHE_DURATION = 60` (seconds). -/
def CACHE_DURATION : ℚ := 60

/-- Python-dict assignment `d[k] = v` on an insertion-ordered association
list: replace in place if the key exists, else append. -/
def dictSet {α : Type} : List (String × α) → String → α → List (String × α)
  | [], k, v => [(k, v)]
  | (k', v') :: rest, k, v =>
    if k' = k then (k, v) :: rest else (k', v') :: dictSet rest k v

/-- Python-dict read `d.get(k)`. -/
def dictGet {α : Type} (d : List (String × α)) (k : String) : Option α :=
  ((d.find? fun p => p.1 = k).map Prod.snd)

/-- Python-dict read `d[k]`: `KeyError` (whose `str` is the quoted key)
when the key is absent. -/
def getKey {α : Type} (d : List (String × α)) (k : String) : Except String α :=
  match dictGet d k with
  | none => .error (sq ++ k ++ sq)
  | some v => .ok v

/-! ## Unit Normalizer (`convert_bytes_to_readable`) -/

/-- Function `convert_bytes_to_readable(value)`: divide by `BYTES_TO_GB`; if the
result is ≥ 1000 divide by `GB_TO_TB` again and report `"TB"`, else
report `"GB"`. -/
def convert_bytes_to_readable (value : ℚ) : ℚ × String :=
  let gb_value := value / BYTES_TO_GB
  if gb_value ≥ 1000 then (gb_value / GB_TO_TB, "TB") else (gb_value, "GB")

/-- The fold-back-to-GB step of `get_vps_data` (the
`multiplier = 1024 if mag == "TB" else 1; value = display * multiplier`
lines), as a function of a single (value, unit) pair. -/
def to_common_gb (value : ℚ) (unit : String) : ℚ :=
  value * (if unit = "TB" then 1024 else 1)

/-! ## Resource Processor (`process_resource_data`) -/

/-- Python `float(s)` applied to the captures of `INNER_PATTERN` (which
are always runs of digits): the value of a non-empty digit run, and a
`ValueError` on the empty string.  (On strings outside this domain —
which never reach `float` in this program — Python's `float` accepts more
syntax; the embedding is used only on pattern captures.) -/
def pyFloat (s : String) : Except String ℚ :=
  if s.data ≠ [] ∧ s.data.all Char.isDigit then
    .ok ((s.data.foldl (fun a c => a * 10 + (c.toNat - 48)) 0 : ℕ) : ℚ)
  else
    .error ("could not convert string to float: " ++ sq ++ s ++ sq)

/-- The dict built by `process_resource_data`, with its fixed keys
(`per`, and `{key}_display` / `{key}_mag` / `{key}` for each of
total/used/free) as fields. -/
structure ProcessedResource where
  per : ℚ
  total_display : ℚ
  total_mag : String
  total : ℚ
  used_display : ℚ
  used_mag : String
  used : ℚ
  free_display : ℚ
  free_mag : String
  free : ℚ
deriving DecidableEq, Repr

/-- Function `process_resource_data(data)`: parse `used` and `total`; compute the
percentage (`used / total * 100.0` when not both zero — Python raises
`ZeroDivisionError` when `total == 0.0` and `used != 0.0` —, `0.0` when
both are zero); then convert each of total/used/free with
`convert_bytes_to_readable`, parsing `free` at that point. -/
def process_resource_data (data : List (String × String)) :
    Except String ProcessedResource := do
  let used ← pyFloat (capGet data "used")
  let total ← pyFloat (capGet data "total")
  let per ←
    if used ≠ 0 ∨ total ≠ 0 then
      if total = 0 then Except.error "float division by zero"
      else Except.ok (used / total * 100)
    else Except.ok 0
  let tc := convert_bytes_to_readable total
  let uc := convert_bytes_to_readable used
  let free ← pyFloat (capGet data "free")
  let fc := convert_bytes_to_readable free
  return ⟨per, tc.1, tc.2, total, uc.1, uc.2, used, fc.1, fc.2, free⟩

/-! ## Response Parser (`api_response`) -/

/-- A value of the dict returned by `api_response`: a processed resource
dict for tags in `RESOURCE_TYPES`, a raw string for tags in
`INFO_TYPES`. -/
inductive TagVal
  | res (r : ProcessedResource)
  | info (s : String)
deriving DecidableEq, Repr

/-- Message `str(e)` of the `AttributeError` raised by `None.groupdict()`. -/
def errNoGroupdict : String :=
  sq ++ "NoneType" ++ sq ++ " object has no attribute " ++ sq ++ "groupdict" ++ sq

/-- Message `str(e)` of the `AttributeError` raised by `None.groups()`. -/
def errNoGroups : String :=
  sq ++ "NoneType" ++ sq ++ " object has no attribute " ++ sq ++ "groups" ++ sq

/-- The loop body of `api_response` over the `OUTER_PATTERN` matches:
classify each tag name; for resource tags run `INNER_PATTERN.match` and
`process_resource_data` (a failed inner match is the `AttributeError`
from calling `.groupdict()` on `None`); for info tags run
`SIMPLE_PATTERN.match`; other tags are skipped. -/
def processMatches :
    List (List (String × String) × List Char) → List (String × TagVal) →
    Except String (List (String × TagVal))
  | [], acc => .ok acc
  | (caps, text) :: rest, acc =>
    let tname := capGet caps "type"
    if tname ∈ RESOURCE_TYPES then
      match mtch INNER_ITEMS text with
      | none => .error errNoGroupdict
      | some (icaps, _) => do
        let pr ← process_resource_data icaps
        processMatches rest (dictSet acc tname (.res pr))
    else if tname ∈ INFO_TYPES then
      match mtch SIMPLE_ITEMS text with
      | none => .error errNoGroups
      | some (scaps, _) =>
        processMatches rest (dictSet acc tname (.info (capGet scaps "string")))
    else
      processMatches rest acc

/-- Function `api_response(flags, api_url)`: the HTTP POST's outcome is an input
(`.error msg` models a `requests` exception — transport failure, timeout
or `raise_for_status` — whose message is wrapped as
`"API request failed: ..."`; `.ok body` is the response text, which is
then parsed).  Parsing errors (`AttributeError` / `ValueError` /
`ZeroDivisionError`) are not `RequestException`s and propagate without
that wrapper, as in the source's `try/except`. -/
def api_response (_flags : List (String × String))
    (httpResult : Except String String) :
    Except String (List (String × TagVal)) :=
  match httpResult with
  | .error e => .error ("API request failed: " ++ e)
  | .ok text => processMatches (findIter text.data) []

/-! ## VPS Data Fetcher and Cache Gate (`get_vps_data`) -/

/-- Dataclass `ServerConfig` (the credential pair plus loop settings). -/
structure ServerConfig where
  key : String
  hash_value : String
  should_loop : Bool
  sleep_minutes : ℤ
deriving DecidableEq, Repr

/-- The `post_flags` dict literal built in `get_vps_data`. -/
def mkPostFlags (config : ServerConfig) : List (String × String) :=
  [("key", config.key), ("hash", config.hash_value), ("action", "info"),
   ("bw", "true"), ("hdd", "true"), ("mem", "true")]

/-- A scalar JSON value of the output payload. -/
inductive Leaf
  | str (s : String)
  | int (z : ℤ)
  | num (q : ℚ)
deriving DecidableEq, Repr

/-- A value of the output dict: a scalar, or a flat dict of scalars
(the per-resource records). -/
inductive OutVal
  | leaf (l : Leaf)
  | obj (fields : List (String × Leaf))
deriving DecidableEq, Repr

/-- The output dict of `get_vps_data` (and the `/status` JSON body). -/
abbrev Output := List (String × OutVal)

/-- Copy a parsed tag value into the output dict (used for the
`hostname` / `ip` fields, which `get_vps_data` copies verbatim).  A
resource dict copied this way keeps `process_resource_data`'s key order. -/
def tagToOutVal : TagVal → OutVal
  | .info s => .leaf (.str s)
  | .res r =>
    .obj [("per", .num r.per),
      ("total_display", .num r.total_display), ("total_mag", .str r.total_mag),
      ("total", .num r.total),
      ("used_display", .num r.used_display), ("used_mag", .str r.used_mag),
      ("used", .num r.used),
      ("free_display", .num r.free_display), ("free_mag", .str r.free_mag),
      ("free", .num r.free)]

/-- The `resource_names` dict literal of `get_vps_data`. -/
def resource_names : List (String × String) :=
  [("hdd", "storage"), ("bw", "bandwidth"), ("mem", "memory")]

/-- The per-resource record built inside `get_vps_data`'s loop: one
`multiplier` derived from `total_mag` is applied to all three displayed
values, and the record `{"total", "used", "free", "usage"}` is built. -/
def foldResource (r : ProcessedResource) : OutVal :=
  let multiplier : ℚ := if r.total_mag = "TB" then 1024 else 1
  .obj [("total", .num (r.total_display * multiplier)),
    ("used", .num (r.used_display * multiplier)),
    ("free", .num (r.free_display * multiplier)),
    ("usage", .num r.per)]

/-- The `for resource_type in RESOURCE_TYPES` loop of `get_vps_data`:
for each type whose flag is `"true"`, read the parsed resource
(`KeyError` when the tag was absent; indexing a plain string raises a
`TypeError`, a branch unreachable because resource-named tags always
parse into resource dicts), fold it to GB and store it under its display
name. -/
def addResources (post_flags : List (String × String))
    (response : List (String × TagVal)) :
    List String → Output → Except String Output
  | [], out => .ok out
  | rt :: rest, out => do
    let flag ← getKey post_flags rt
    if flag = "true" then do
      let rd ← getKey response rt
      match rd with
      | .info _ => .error "string indices must be integers"
      | .res r => do
        let name ← getKey resource_names rt
        addResources post_flags response rest (dictSet out name (foldResource r))
    else
      addResources post_flags response rest out

/-- The output-assembly section of `get_vps_data`: the dict literal with
`hostname`, `ip` and `last_update` (the `int(time.time())` stamp), then
the resource loop. -/
def assembleOutput (post_flags : List (String × String))
    (response : List (String × TagVal)) (stamp : ℤ) : Except String Output := do
  let hn ← getKey response "hostname"
  let ipv ← getKey response "ipaddress"
  let out0 : Output :=
    [("hostname", tagToOutVal hn), ("ip", tagToOutVal ipv),
     ("last_update", .leaf (.int stamp))]
  addResources post_flags response RESOURCE_TYPES out0

/-- The module-level cache: `cached_data` and `last_update`. -/
structure GateState where
  cached_data : Option Output
  last_update : ℚ
deriving DecidableEq, Repr

deriving instance DecidableEq for Except

/-- The per-call environment of `get_vps_data`: the outcome of
`load_config()` (`.error` is the `str` of the `RuntimeError` it raises),
the outcome of the HTTP POST (see `api_response`), and the
`int(time.time())` stamp taken at output assembly. -/
structure FetchEnv where
  configResult : Except String ServerConfig
  httpResult : Except String String
  stamp : ℤ
deriving DecidableEq, Repr

/-- The `try` block of `get_vps_data` (the refresh path): load the
config, call `api_response`, reject an empty result dict, assemble the
output, and on success replace `cached_data` and `last_update` (with the
`current_time` read at entry).  Any exception is re-raised as
`RuntimeError("Failed to fetch VPS data: ...")` with the cache
untouched.  The third component counts upstream HTTP calls (0 or 1). -/
def fetchAndCache (st : GateState) (current_time : ℚ) (env : FetchEnv) :
    Except String Output × GateState × Nat :=
  match env.configResult with
  | .error e => (.error ("Failed to fetch VPS data: " ++ e), st, 0)
  | .ok config =>
    let post_flags := mkPostFlags config
    match api_response post_flags env.httpResult with
    | .error e => (.error ("Failed to fetch VPS data: " ++ e), st, 1)
    | .ok response =>
      if response = [] then
        (.error ("Failed to fetch VPS data: " ++ "Empty response from the server"),
          st, 1)
      else
        match assembleOutput post_flags response env.stamp with
        | .error e => (.error ("Failed to fetch VPS data: " ++ e), st, 1)
        | .ok output => (.ok output, ⟨some output, current_time⟩, 1)

/-- Function `get_vps_data()`: under the lock, serve the cached dict when it is
non-`None` and younger than `CACHE_DURATION`, else run the refresh
path. -/
def get_vps_data (st : GateState) (current_time : ℚ) (env : FetchEnv) :
    Except String Output × GateState × Nat :=
  match st.cached_data with
  | some d =>
    if current_time - st.last_update < CACHE_DURATION then (.ok d, st, 0)
    else fetchAndCache st current_time env
  | none => fetchAndCache st current_time env

/-! ## The `/metrics` endpoint -/

/-- The body-building section of `metrics`: it starts by indexing
`data["resources"]`, raising `KeyError("resources")` when the key is
absent (which is the case for every dict `get_vps_data` builds).  The
remaining branches model the Python failures on the representable
values: calling `.items()` on a scalar and subscripting a scalar record
both raise (`AttributeError`/`TypeError`); they are unreachable for
pipeline outputs. -/
def metricsBody (data : Output) : Except String String :=
  match dictGet data "resources" with
  | none => .error (sq ++ "resources" ++ sq)
  | some (.leaf _) => .error "object has no attribute items"
  | some (.obj []) => .ok ""
  | some (.obj (_ :: _)) => .error "object is not subscriptable"

/-- The `/metrics` handler: on any exception from `get_vps_data` or the
body build, return `# ERROR: <message>` with status 500, else the joined
lines with status 200. -/
def metrics (st : GateState) (current_time : ℚ) (env : FetchEnv) :
    (String × Nat) × GateState × Nat :=
  match get_vps_data st current_time env with
  | (.error e, st', n) => (("# ERROR: " ++ e, 500), st', n)
  | (.ok data, st', n) =>
    match metricsBody data with
    | .ok body => ((body, 200), st', n)
    | .error e => (("# ERROR: " ++ e, 500), st', n)

/-! ## Serialized concurrent callers -/

/-- N callers serialized by `cache_lock`: each holds the lock for its
whole `get_vps_data` body, so any concurrent execution is equivalent to
running the calls in some order, each with the timestamp it read.
`runCalls` runs such a serialization and counts the upstream calls. -/
def runCalls (st : GateState) :
    List (ℚ × FetchEnv) → List (Except String Output) × GateState × Nat
  | [] => ([], st, 0)
  | (t, env) :: rest =>
    match get_vps_data st t env with
    | (r, st', n) =>
      match runCalls st' rest with
      | (rs, st'', m) => (r :: rs, st'', n + m)

/-! ## Concrete fixtures -/

/-- A resolved configuration, as `load_config` would return it. -/
def cfg0 : ServerConfig := ⟨"k", "h", false, 1⟩

/-- A well-formed upstream body (2 GiB disk, half used; idle bandwidth
and memory). -/
def body0 : String :=
  "<hdd>2147483648,1073741824,1073741824,50</hdd><hostname>h</hostname><ipaddress>i</ipaddress><bw>0,0,0,0</bw><mem>0,0,0,0</mem>"

/-- An environment for a successful fetch of `body0`, stamped at 5. -/
def env0 : FetchEnv := ⟨.ok cfg0, .ok body0, 5⟩

/-- The snapshot the pipeline builds from `body0` with stamp 5. -/
def out0 : Output :=
  [("hostname", .leaf (.str "h")), ("ip", .leaf (.str "i")),
   ("last_update", .leaf (.int 5)),
   ("storage", .obj [("total", .num 2), ("used", .num 1), ("free", .num 1),
     ("usage", .num 50)]),
   ("bandwidth", .obj [("total", .num 0), ("used", .num 0), ("free", .num 0),
     ("usage", .num 0)]),
   ("memory", .obj [("total", .num 0), ("used", .num 0), ("free", .num 0),
     ("usage", .num 0)])]

/-- An environment whose HTTP POST fails with message `boom`. -/
def envE1 : FetchEnv := ⟨.ok cfg0, .error "boom", 5⟩

/-- An environment whose HTTP POST times out. -/
def envB1 : FetchEnv := ⟨.ok cfg0, .error "connection timed out", 5⟩

/-- An environment whose HTTP POST gets a gateway error. -/
def envB2 : FetchEnv := ⟨.ok cfg0, .error "502 Bad Gateway", 5⟩

/-- An environment returning a resource block with a non-numeric group. -/
def envMal : FetchEnv := ⟨.ok cfg0, .ok "<hdd>1,2,x,4</hdd>", 5⟩

/-- The groups parsed out of `body0`'s disk block. -/
def capsA : List (String × String) :=
  [("total", "2147483648"), ("used", "1073741824"), ("free", "1073741824"),
   ("per", "50")]

/-- The record `process_resource_data` builds from `capsA`. -/
def procA : ProcessedResource :=
  ⟨50, 2, "GB", 2147483648, 1, "GB", 1073741824, 1, "GB", 1073741824⟩

/-- The groups parsed out of the block `<hdd>5,1,1,0</hdd>`. -/
def capsW : List (String × String) :=
  [("total", "5"), ("used", "1"), ("free", "1"), ("per", "0")]

/-- All captured stars of the listed group names are digit-class stars
whose accumulated run is all digits (the invariant `mtch` preserves). -/
def itemsDigitOK (names : List String) (items : List Item) : Prop :=
  ∀ g cls acc, Item.star (some g) cls acc ∈ items → g ∈ names →
    cls = Cls.digit ∧ ∀ c ∈ acc, c.isDigit = true

/-! ## Helper lemmas -/

/-- The refresh path either fails leaving the state unchanged (with the
`RuntimeError` wrapper and 0 or 1 upstream calls), or succeeds having
made exactly one upstream call and stored the new output with the entry
timestamp `current_time`. -/
theorem fetchAndCache_cases (st : GateState) (t : ℚ) (env : FetchEnv) :
    (∃ e n, fetchAndCache st t env =
        (.error ("Failed to fetch VPS data: " ++ e), st, n) ∧ n ≤ 1) ∨
    (∃ out, fetchAndCache st t env = (.ok out, ⟨some out, t⟩, 1)) := by
  cases henv : env.configResult with
  | error e =>
    refine Or.inl ⟨e, 0, ?_, by omega⟩
    simp [fetchAndCache, henv]
  | ok config =>
    cases hapi : api_response (mkPostFlags config) env.httpResult with
    | error e =>
      refine Or.inl ⟨e, 1, ?_, by omega⟩
      simp [fetchAndCache, henv, hapi]
    | ok response =>
      by_cases hresp : response = []
      · refine Or.inl ⟨"Empty response from the server", 1, ?_, by omega⟩
        simp [fetchAndCache, henv, hapi, hresp]
      · cases hasm : assembleOutput (mkPostFlags config) response env.stamp with
        | error e =>
          refine Or.inl ⟨e, 1, ?_, by omega⟩
          simp [fetchAndCache, henv, hapi, hresp, hasm]
        | ok output =>
          refine Or.inr ⟨output, ?_⟩
          simp [fetchAndCache, henv, hapi, hresp, hasm]

/-- A failing refresh leaves the cache state exactly as it was. -/
theorem fetchAndCache_error_state (st : GateState) (t : ℚ) (env : FetchEnv)
    (e : String) (h : (fetchAndCache st t env).1 = .error e) :
    (fetchAndCache st t env).2.1 = st ∧
      ∃ e0, e = "Failed to fetch VPS data: " ++ e0 := by
  rcases fetchAndCache_cases st t env with ⟨e0, n, heq, -⟩ | ⟨out, heq⟩
  · rw [heq] at h ⊢
    exact ⟨rfl, e0, by simpa using h.symm⟩
  · rw [heq] at h
    simp at h

/-- A successful refresh stores the output it returns, stamps the entry
with `current_time`, and makes exactly one upstream call. -/
theorem fetchAndCache_ok (st : GateState) (t : ℚ) (env : FetchEnv)
    (out : Output) (st' : GateState) (n : ℕ)
    (h : fetchAndCache st t env = (.ok out, st', n)) :
    st' = ⟨some out, t⟩ ∧ n = 1 := by
  rcases fetchAndCache_cases st t env with ⟨e0, m, heq, -⟩ | ⟨out', heq⟩
  · rw [heq] at h
    simp at h
  · rw [heq] at h
    have h1 := congrArg Prod.fst h
    have h2 := congrArg (fun p => p.2.1) h
    have h3 := congrArg (fun p => p.2.2) h
    simp at h1 h2 h3
    subst h1
    exact ⟨h2.symm, h3.symm⟩

/-- A fresh cache entry is served as-is, with no upstream call. -/
theorem get_vps_data_hit (st : GateState) (t : ℚ) (env : FetchEnv)
    (d : Output) (hd : st.cached_data = some d)
    (ht : t - st.last_update < CACHE_DURATION) :
    get_vps_data st t env = (.ok d, st, 0) := by
  unfold get_vps_data
  rw [hd]
  simp [ht]

/-- With no cached entry, `get_vps_data` is the refresh path. -/
theorem get_vps_data_empty (st : GateState) (t : ℚ) (env : FetchEnv)
    (hd : st.cached_data = none) :
    get_vps_data st t env = fetchAndCache st t env := by
  unfold get_vps_data
  rw [hd]

/-- With a stale entry, `get_vps_data` is the refresh path. -/
theorem get_vps_data_stale (st : GateState) (t : ℚ) (env : FetchEnv)
    (d : Output) (hd : st.cached_data = some d)
    (ht : ¬ t - st.last_update < CACHE_DURATION) :
    get_vps_data st t env = fetchAndCache st t env := by
  unfold get_vps_data
  rw [hd]
  simp [ht]

/-- An erroring `get_vps_data` call leaves the state unchanged and its
message carries the `RuntimeError` wrapper. -/
theorem get_vps_data_error_state (st : GateState) (t : ℚ) (env : FetchEnv)
    (e : String) (h : (get_vps_data st t env).1 = .error e) :
    (get_vps_data st t env).2.1 = st ∧
      ∃ e0, e = "Failed to fetch VPS data: " ++ e0 := by
  cases hd : st.cached_data with
  | none =>
    rw [get_vps_data_empty st t env hd] at h ⊢
    exact fetchAndCache_error_state st t env e h
  | some d =>
    by_cases ht : t - st.last_update < CACHE_DURATION
    · rw [get_vps_data_hit st t env d hd ht] at h
      simp at h
    · rw [get_vps_data_stale st t env d hd ht] at h ⊢
      exact fetchAndCache_error_state st t env e h

/-- Reduction of a successful `Except` bind. -/
theorem exceptBind_ok {α β : Type} (a : α) (f : α → Except String β) :
    (Except.ok a >>= f) = f a := rfl

/-- Reduction of a failed `Except` bind. -/
theorem exceptBind_error {α β : Type} (e : String) (f : α → Except String β) :
    ((Except.error e : Except String α) >>= f) = .error e := rfl

/-- Every resource flag in `post_flags` is the literal `"true"`. -/
theorem mkPostFlags_true (c : ServerConfig) :
    ∀ rt ∈ RESOURCE_TYPES, getKey (mkPostFlags c) rt = .ok "true" := by
  intro rt hrt
  fin_cases hrt <;> rfl

/-- One step of the resource loop when the parsed resource is present. -/
theorem addResources_cons_res (pf : List (String × String))
    (response : List (String × TagVal)) (rt : String) (rest : List String)
    (acc : Output) (name : String) (r : ProcessedResource)
    (hflag : getKey pf rt = .ok "true")
    (hresp : getKey response rt = .ok (.res r))
    (hname : getKey resource_names rt = .ok name) :
    addResources pf response (rt :: rest) acc =
      addResources pf response rest (dictSet acc name (foldResource r)) := by
  simp only [addResources, hflag, hresp, hname, exceptBind_ok]
  rfl

/-- Every successfully assembled output dict has exactly the keys
`hostname`, `ip`, `last_update`, `storage`, `bandwidth`, `memory`, in
that order, the three resource records being `foldResource` records. -/
theorem assembleOutput_shape (config : ServerConfig)
    (response : List (String × TagVal)) (stamp : ℤ) (out : Output)
    (h : assembleOutput (mkPostFlags config) response stamp = .ok out) :
    ∃ hv iv r1 r2 r3, out =
      [("hostname", hv), ("ip", iv),
       ("last_update", OutVal.leaf (Leaf.int stamp)),
       ("storage", foldResource r1), ("bandwidth", foldResource r2),
       ("memory", foldResource r3)] := by
  unfold assembleOutput at h
  cases hhn : getKey response "hostname" with
  | error e => rw [hhn, exceptBind_error] at h; exact absurd h (by simp)
  | ok hn =>
  rw [hhn, exceptBind_ok] at h
  cases hip : getKey response "ipaddress" with
  | error e => rw [hip, exceptBind_error] at h; exact absurd h (by simp)
  | ok ipv =>
  rw [hip, exceptBind_ok] at h
  cases hr1 : getKey response "hdd" with
  | error e =>
    rw [show RESOURCE_TYPES = ["hdd", "bw", "mem"] from rfl] at h
    simp only [addResources, mkPostFlags_true config "hdd" (by simp [RESOURCE_TYPES]),
      exceptBind_ok, hr1, exceptBind_error] at h
    exact absurd h (by simp)
  | ok tv1 =>
  cases tv1 with
  | info s =>
    rw [show RESOURCE_TYPES = ["hdd", "bw", "mem"] from rfl] at h
    simp only [addResources, mkPostFlags_true config "hdd" (by simp [RESOURCE_TYPES]),
      exceptBind_ok, hr1, exceptBind_error] at h
    exact absurd h (by simp)
  | res r1 =>
  rw [show RESOURCE_TYPES = ["hdd", "bw", "mem"] from rfl] at h
  rw [addResources_cons_res _ _ _ _ _ _ _
    (mkPostFlags_true config "hdd" (by simp [RESOURCE_TYPES])) hr1 rfl] at h
  cases hr2 : getKey response "bw" with
  | error e =>
    simp only [addResources, mkPostFlags_true config "bw" (by simp [RESOURCE_TYPES]),
      exceptBind_ok, hr2, exceptBind_error] at h
    exact absurd h (by simp)
  | ok tv2 =>
  cases tv2 with
  | info s =>
    simp only [addResources, mkPostFlags_true config "bw" (by simp [RESOURCE_TYPES]),
      exceptBind_ok, hr2, exceptBind_error] at h
    exact absurd h (by simp)
  | res r2 =>
  rw [addResources_cons_res _ _ _ _ _ _ _
    (mkPostFlags_true config "bw" (by simp [RESOURCE_TYPES])) hr2 rfl] at h
  cases hr3 : getKey response "mem" with
  | error e =>
    simp only [addResources, mkPostFlags_true config "mem" (by simp [RESOURCE_TYPES]),
      exceptBind_ok, hr3, exceptBind_error] at h
    exact absurd h (by simp)
  | ok tv3 =>
  cases tv3 with
  | info s =>
    simp only [addResources, mkPostFlags_true config "mem" (by simp [RESOURCE_TYPES]),
      exceptBind_ok, hr3, exceptBind_error] at h
    exact absurd h (by simp)
  | res r3 =>
  rw [addResources_cons_res _ _ _ _ _ _ _
    (mkPostFlags_true config "mem" (by simp [RESOURCE_TYPES])) hr3 rfl] at h
  simp only [addResources] at h
  refine ⟨tagToOutVal hn, tagToOutVal ipv, r1, r2, r3, ?_⟩
  have h2 : (dictSet (dictSet (dictSet
      [("hostname", tagToOutVal hn), ("ip", tagToOutVal ipv),
       ("last_update", OutVal.leaf (Leaf.int stamp))]
      "storage" (foldResource r1)) "bandwidth" (foldResource r2))
      "memory" (foldResource r3) : Output) =
      [("hostname", tagToOutVal hn), ("ip", tagToOutVal ipv),
       ("last_update", OutVal.leaf (Leaf.int stamp)),
       ("storage", foldResource r1), ("bandwidth", foldResource r2),
       ("memory", foldResource r3)] := rfl
  rw [h2] at h
  injection h with h
  exact h.symm

/-- The invariant passes to the tail of the item list. -/
theorem itemsDigitOK_tail {names : List String} {i : Item} {items : List Item}
    (h : itemsDigitOK names (i :: items)) : itemsDigitOK names items :=
  fun g cls acc hm hn => h g cls acc (List.mem_cons_of_mem _ hm) hn

/-- A mapped option that is not `some` comes from `none`. -/
theorem map_isSome_none {α β : Type} (f : α → β) (o : Option α)
    (h : ¬ (o.map f).isSome = true) : o = none := by
  cases o <;> simp_all

/-- A mapped option that is `some` comes from `some`. -/
theorem map_isSome_some {α β : Type} (f : α → β) (o : Option α)
    (h : (o.map f).isSome = true) : ∃ a, o = some a := by
  cases o <;> simp_all

/-- Star step, when matching the rest of the pattern here succeeds. -/
theorem mtch_star_some (g : Option String) (cls : Cls) (acc : List Char)
    (rest : List Item) (s : List Char) (caps0 : List (String × String))
    (rem0 : List Char) (h : mtch rest s = some (caps0, rem0)) :
    mtch (Item.star g cls acc :: rest) s = some (addCaps g acc caps0, rem0) := by
  rw [mtch.eq_def]
  simp [h]

/-- Star step at the end of the text, when the rest of the pattern does
not match here: the star cannot extend. -/
theorem mtch_star_none_nil (g : Option String) (cls : Cls) (acc : List Char)
    (rest : List Item) (h : mtch rest [] = none) :
    mtch (Item.star g cls acc :: rest) [] = none := by
  rw [mtch.eq_def]
  simp [h]

/-- Star step on a non-empty text, when the rest of the pattern does not
match here: extend the star by one character of its class. -/
theorem mtch_star_none_cons (g : Option String) (cls : Cls) (acc : List Char)
    (rest : List Item) (x : Char) (s' : List Char)
    (h : mtch rest (x :: s') = none) :
    mtch (Item.star g cls acc :: rest) (x :: s') =
      if clsMatch cls x then mtch (Item.star g cls (x :: acc) :: rest) s'
      else none := by
  rw [mtch.eq_def]
  simp [h]

/-- Any capture of a digit-class group in a successful match is a run of
digits: the matcher only ever feeds a star characters its class
accepts. -/
theorem mtch_digit_caps (names : List String) (items : List Item) (s : List Char) :
    itemsDigitOK names items →
    ∀ caps rem, mtch items s = some (caps, rem) →
    ∀ n v, (n, v) ∈ caps → n ∈ names → ∀ c ∈ v.data, c.isDigit = true := by
  induction items, s using mtch.induct with
  | case1 s =>
    intro hok caps rem h n v hmem hn c hc
    simp only [mtch, Option.some.injEq, Prod.mk.injEq] at h
    obtain ⟨h1, -⟩ := h
    rw [← h1] at hmem
    simp at hmem
  | case2 c tail =>
    intro hok caps rem h
    simp [mtch] at h
  | case3 rest x s ih =>
    intro hok caps rem h
    rw [show mtch (Item.lit x :: rest) (x :: s) = mtch rest s by simp [mtch]] at h
    exact ih (itemsDigitOK_tail hok) caps rem h
  | case4 c rest x s hne =>
    intro hok caps rem h
    simp [mtch, hne] at h
  | case5 g cls acc rest s zero hzero ih =>
    intro hok caps rem h
    obtain ⟨⟨caps0, rem0⟩, hrest⟩ := map_isSome_some _ _ hzero
    rw [mtch_star_some g cls acc rest s caps0 rem0 hrest] at h
    simp only [Option.some.injEq, Prod.mk.injEq] at h
    obtain ⟨h1, -⟩ := h
    rw [← h1]
    intro n v hmem hn c hc
    cases g with
    | none =>
      exact ih (itemsDigitOK_tail hok) caps0 rem0 hrest n v hmem hn c hc
    | some nm =>
      simp only [addCaps, List.mem_cons] at hmem
      rcases hmem with heq | hmem
      · injection heq with h1 h2
        obtain ⟨-, hacc⟩ := hok nm cls acc (List.mem_cons_self _ _) (h1 ▸ hn)
        have hc2 : c ∈ acc.reverse := by
          have hc3 := h2 ▸ hc
          simpa using hc3
        exact hacc c (by simpa using hc2)
      · exact ih (itemsDigitOK_tail hok) caps0 rem0 hrest n v hmem hn c hc
  | case6 g cls acc rest zero hzero ih =>
    intro hok caps rem h
    rw [mtch_star_none_nil g cls acc rest (map_isSome_none _ _ hzero)] at h
    simp at h
  | case7 g cls acc rest x s' hcls zero hzero ih1 ih2 =>
    intro hok caps rem h
    rw [mtch_star_none_cons g cls acc rest x s' (map_isSome_none _ _ hzero),
      if_pos hcls] at h
    refine ih2 ?_ caps rem h
    intro g' cls' acc' hm hn
    rcases List.mem_cons.mp hm with heq | hm'
    · injection heq with hg hcl hacc
      subst hg
      subst hcl
      obtain ⟨hd, hacc0⟩ := hok g' cls' acc (List.mem_cons_self _ _) hn
      subst hd
      refine ⟨rfl, ?_⟩
      rw [hacc]
      intro c hc
      rcases List.mem_cons.mp hc with rfl | hc'
      · simpa [clsMatch] using hcls
      · exact hacc0 c hc'
    · exact hok g' cls' acc' (List.mem_cons_of_mem _ hm') hn
  | case8 g cls acc rest x s' hcls zero hzero ih =>
    intro hok caps rem h
    rw [mtch_star_none_cons g cls acc rest x s' (map_isSome_none _ _ hzero),
      if_neg hcls] at h
    simp at h

/-- If some matched block is classified as a resource but fails the
inner four-numeric-group match, the parse loop errors out (either on
that block or on an earlier one): no result dict is ever produced. -/
theorem processMatches_error_of_bad
    (ms : List (List (String × String) × List Char)) (acc : List (String × TagVal))
    (h : ∃ m ∈ ms, capGet m.1 "type" ∈ RESOURCE_TYPES ∧ mtch INNER_ITEMS m.2 = none) :
    ∃ e, processMatches ms acc = .error e := by
  induction ms generalizing acc with
  | nil => simp at h
  | cons hd tl ih =>
    obtain ⟨m, hm, hres, hfail⟩ := h
    rcases List.mem_cons.mp hm with rfl | hmtl
    · exact ⟨errNoGroupdict, by simp [processMatches, hres, hfail]⟩
    · by_cases h1 : capGet hd.1 "type" ∈ RESOURCE_TYPES
      · cases h2 : mtch INNER_ITEMS hd.2 with
        | none => exact ⟨errNoGroupdict, by simp [processMatches, h1, h2]⟩
        | some pr =>
          obtain ⟨icaps, irem⟩ := pr
          cases h3 : process_resource_data icaps with
          | error e =>
            exact ⟨e, by simp [processMatches, h1, h2, h3, exceptBind_error]⟩
          | ok prr =>
            obtain ⟨e, he⟩ :=
              ih (dictSet acc (capGet hd.1 "type") (.res prr)) ⟨m, hmtl, hres, hfail⟩
            refine ⟨e, ?_⟩
            simpa [processMatches, h1, h2, h3, exceptBind_ok] using he
      · by_cases h4 : capGet hd.1 "type" ∈ INFO_TYPES
        · cases h5 : mtch SIMPLE_ITEMS hd.2 with
          | none => exact ⟨errNoGroups, by simp [processMatches, h1, h4, h5]⟩
          | some pr =>
            obtain ⟨scaps, srem⟩ := pr
            obtain ⟨e, he⟩ :=
              ih (dictSet acc (capGet hd.1 "type") (.info (capGet scaps "string")))
                ⟨m, hmtl, hres, hfail⟩
            refine ⟨e, ?_⟩
            simpa [processMatches, h1, h4, h5] using he
        · obtain ⟨e, he⟩ := ih acc ⟨m, hmtl, hres, hfail⟩
          refine ⟨e, ?_⟩
          simpa [processMatches, h1, h4] using he

/-- Any number of serialized readers hitting a fresh cache entry all get
the cached output, leave the state alone, and never call upstream. -/
theorem runCalls_cached (out : Output) (t0 : ℚ) (calls : List (ℚ × FetchEnv))
    (h : ∀ p ∈ calls, p.1 - t0 < CACHE_DURATION) :
    runCalls ⟨some out, t0⟩ calls =
      (calls.map fun _ => .ok out, ⟨some out, t0⟩, 0) := by
  induction calls with
  | nil => rfl
  | cons hd tl ih =>
    obtain ⟨t, env⟩ := hd
    simp only [runCalls]
    rw [get_vps_data_hit ⟨some out, t0⟩ t env out rfl (h (t, env) (by simp))]
    rw [ih fun p hp => h p (List.mem_cons_of_mem _ hp)]
    simp

/-- Once the configuration resolves, the refresh path makes exactly one
upstream call, whatever the outcome. -/
theorem fetchAndCache_calls (st : GateState) (t : ℚ) (env : FetchEnv)
    (c : ServerConfig) (h : env.configResult = .ok c) :
    (fetchAndCache st t env).2.2 = 1 := by
  cases hapi : api_response (mkPostFlags c) env.httpResult with
  | error e => simp [fetchAndCache, h, hapi]
  | ok response =>
    by_cases hresp : response = []
    · simp [fetchAndCache, h, hapi, hresp]
    · cases hasm : assembleOutput (mkPostFlags c) response env.stamp with
      | error e => simp [fetchAndCache, h, hapi, hresp, hasm]
      | ok output => simp [fetchAndCache, h, hapi, hresp, hasm]

/-- A successful refresh went through a resolved configuration and a
successful output assembly over the parsed response. -/
theorem fetchAndCache_ok_assemble (st : GateState) (t : ℚ) (env : FetchEnv)
    (out : Output) (st' : GateState) (n : ℕ)
    (h : fetchAndCache st t env = (.ok out, st', n)) :
    ∃ config response, env.configResult = .ok config ∧
      assembleOutput (mkPostFlags config) response env.stamp = .ok out := by
  cases henv : env.configResult with
  | error e => simp [fetchAndCache, henv] at h
  | ok config =>
    cases hapi : api_response (mkPostFlags config) env.httpResult with
    | error e => simp [fetchAndCache, henv, hapi] at h
    | ok response =>
      by_cases hresp : response = []
      · simp [fetchAndCache, henv, hapi, hresp] at h
      · cases hasm : assembleOutput (mkPostFlags config) response env.stamp with
        | error e => simp [fetchAndCache, henv, hapi, hresp, hasm] at h
        | ok output =>
          rw [show fetchAndCache st t env = (.ok output, ⟨some output, t⟩, 1) from by
            simp [fetchAndCache, henv, hapi, hresp, hasm]] at h
          have h1 := congrArg Prod.fst h
          simp only [Except.ok.injEq] at h1
          refine ⟨config, response, rfl, ?_⟩
          rw [← h1]
          exact hasm

/-- Every snapshot a fetch-backed successful call returns has exactly the
six flat keys, with the three `foldResource` records at top level. -/
theorem get_vps_data_ok_shape (st : GateState) (t : ℚ) (env : FetchEnv)
    (out : Output) (st' : GateState) (n : ℕ)
    (hempty : st.cached_data = none)
    (hok : get_vps_data st t env = (.ok out, st', n)) :
    ∃ hv iv r1 r2 r3, out =
      [("hostname", hv), ("ip", iv),
       ("last_update", OutVal.leaf (Leaf.int env.stamp)),
       ("storage", foldResource r1), ("bandwidth", foldResource r2),
       ("memory", foldResource r3)] := by
  rw [get_vps_data_empty st t env hempty] at hok
  obtain ⟨config, response, -, hasm⟩ :=
    fetchAndCache_ok_assemble st t env out st' n hok
  exact assembleOutput_shape config response env.stamp out hasm

/-- A successful `float()` on a parser capture yields the value of a
non-empty digit run: a natural number. -/
theorem pyFloat_natCast (s : String) (q : ℚ) (h : pyFloat s = .ok q) :
    ∃ n : ℕ, q = (n : ℚ) := by
  unfold pyFloat at h
  split at h
  · injection h with h
    exact ⟨_, h.symm⟩
  · cases h

/-! ## Claim theorems -/

/-- C4: if a refresh attempt fails — for any error: upstream unavailable,
malformed data, or configuration failure — the cached entry and its
stored fetch timestamp are left exactly as they were before the call
(the returned state is the input state, both fields included), and the
error propagates to the caller of `get_vps_data`, wrapped in the
fetch-level RuntimeError message. -/
theorem C4_failure_preserves_cache (st : GateState) (t : ℚ) (env : FetchEnv)
    (e : String) (h : (get_vps_data st t env).1 = .error e) :
    (get_vps_data st t env).2.1 = st ∧
      ∃ e0, e = "Failed to fetch VPS data: " ++ e0 :=
  get_vps_data_error_state st t env e h

set_option maxRecDepth 1000000 in
/-- Witness for C4: a stale cached entry survives a failed refresh
untouched (timestamp included) and the caller sees the error. -/
theorem C4_failure_preserves_cache_witness :
    (get_vps_data ⟨some out0, 0⟩ 100 envE1).2.1 = ⟨some out0, 0⟩ ∧
      ∃ e0, "Failed to fetch VPS data: " ++ ("API request failed: " ++ "boom") =
        "Failed to fetch VPS data: " ++ e0 :=
  C4_failure_preserves_cache ⟨some out0, 0⟩ 100 envE1
    ("Failed to fetch VPS data: " ++ ("API request failed: " ++ "boom"))
    (by with_unfolding_all rfl)

/-- C5: for every resource input whose total parses to a value strictly
greater than 0, the computed `per` equals used / total * 100 (exactly,
in the rational model, hence within float tolerance); for inputs with
total = 0 and used = 0 it equals exactly 0. -/
theorem C5_usage_percent (data : List (String × String)) (T U : ℚ)
    (hT : pyFloat (capGet data "total") = .ok T)
    (hU : pyFloat (capGet data "used") = .ok U) :
    (0 < T → ∀ r, process_resource_data data = .ok r → r.per = U / T * 100) ∧
    (T = 0 → U = 0 → ∀ r, process_resource_data data = .ok r → r.per = 0) := by
  constructor
  · intro hTpos r hr
    unfold process_resource_data at hr
    simp only [hU, hT, exceptBind_ok] at hr
    rw [if_pos (Or.inr hTpos.ne'), if_neg hTpos.ne'] at hr
    cases hf : pyFloat (capGet data "free") with
    | error ef =>
      simp only [hf, exceptBind_error] at hr
      cases hr
    | ok F =>
      simp only [hf, exceptBind_ok, pure, Except.pure] at hr
      injection hr with hr
      rw [← hr]
  · intro hT0 hU0 r hr
    unfold process_resource_data at hr
    simp only [hU, hT, exceptBind_ok] at hr
    rw [if_neg (by simp [hT0, hU0])] at hr
    cases hf : pyFloat (capGet data "free") with
    | error ef =>
      simp only [hf, exceptBind_error] at hr
      cases hr
    | ok F =>
      simp only [hf, exceptBind_ok, pure, Except.pure] at hr
      injection hr with hr
      rw [← hr]

set_option maxRecDepth 1000000 in
/-- Witness for C5 at the concrete parsed disk block of `body0`. -/
theorem C5_usage_percent_witness :
    procA.per = 1073741824 / 2147483648 * 100 :=
  (C5_usage_percent capsA 2147483648 1073741824 rfl rfl).1
    (by norm_num) procA (by with_unfolding_all rfl)

/-- C6: for every byte value v ≥ 0, `convert_bytes_to_readable` reports
unit "GB" exactly when v / 2^30 < 1000, and folding its result back
through `to_common_gb` (×1024 for "TB", identity for "GB") recovers
v / 2^30 exactly (hence within float tolerance). -/
theorem C6_normalize_roundtrip (v : ℚ) (hv : 0 ≤ v) :
    ((convert_bytes_to_readable v).2 = "GB" ↔ v / BYTES_TO_GB < 1000) ∧
    to_common_gb (convert_bytes_to_readable v).1 (convert_bytes_to_readable v).2 =
      v / BYTES_TO_GB := by
  by_cases h : v / BYTES_TO_GB ≥ 1000
  · have hc : convert_bytes_to_readable v = (v / BYTES_TO_GB / GB_TO_TB, "TB") := by
      simp only [convert_bytes_to_readable]
      rw [if_pos h]
    rw [hc]
    constructor
    · constructor
      · intro hgb
        cases (by decide : ("TB" : String) ≠ "GB") hgb
      · intro hlt
        linarith
    · show to_common_gb (v / BYTES_TO_GB / GB_TO_TB) "TB" = v / BYTES_TO_GB
      simp only [to_common_gb, GB_TO_TB]
      rw [if_pos (by trivial)]
      rw [div_mul_cancel₀]
      norm_num
  · have hc : convert_bytes_to_readable v = (v / BYTES_TO_GB, "GB") := by
      simp only [convert_bytes_to_readable]
      rw [if_neg h]
    rw [hc]
    refine ⟨⟨fun _ => not_le.mp h, fun _ => rfl⟩, ?_⟩
    show to_common_gb (v / BYTES_TO_GB) "GB" = v / BYTES_TO_GB
    have h1 : (if ("GB" : String) = "TB" then (1024 : ℚ) else 1) = 1 :=
      if_neg (by decide)
    simp only [to_common_gb, h1]
    ring

/-- Witness for C6 at v = 2^41 bytes (a TB-range value). -/
theorem C6_normalize_roundtrip_witness :
    (((convert_bytes_to_readable 2199023255552).2 = "GB") ↔
      (2199023255552 : ℚ) / BYTES_TO_GB < 1000) ∧
    to_common_gb (convert_bytes_to_readable 2199023255552).1
      (convert_bytes_to_readable 2199023255552).2 =
      (2199023255552 : ℚ) / BYTES_TO_GB :=
  C6_normalize_roundtrip 2199023255552 (by norm_num)

/-- C1: the claim says every successful pipeline result makes
`GET /metrics` render, per resource kind, three gauges with HELP/TYPE
lines.  The code cannot do this: `get_vps_data` builds a flat dict with
no "resources" key, so the handler's first access `data["resources"]`
raises `KeyError("resources")` on every successful result, and the
endpoint answers the single line `# ERROR: 'resources'` with status 500
(the claim's error-path half is what actually happens, with this fixed
message). -/
theorem C1_metrics_errors_on_success (st : GateState) (t : ℚ) (env : FetchEnv)
    (data : Output) (st' : GateState) (n : ℕ)
    (hempty : st.cached_data = none)
    (hok : get_vps_data st t env = (.ok data, st', n)) :
    dictGet data "resources" = none ∧
    metrics st t env = (("# ERROR: " ++ (sq ++ "resources" ++ sq), 500), st', n) := by
  obtain ⟨hv, iv, r1, r2, r3, hshape⟩ :=
    get_vps_data_ok_shape st t env data st' n hempty hok
  have hres : dictGet data "resources" = none := by
    rw [hshape]
    rfl
  refine ⟨hres, ?_⟩
  simp only [metrics, hok, metricsBody, hres]

set_option maxRecDepth 1000000 in
/-- Witness for C1: on the concrete successful input `env0` the metrics
endpoint answers the KeyError comment line with status 500. -/
theorem C1_metrics_errors_on_success_witness :
    dictGet out0 "resources" = none ∧
    metrics ⟨none, 0⟩ 0 env0 =
      (("# ERROR: " ++ (sq ++ "resources" ++ sq), 500), ⟨some out0, 0⟩, 1) :=
  C1_metrics_errors_on_success ⟨none, 0⟩ 0 env0 out0 ⟨some out0, 0⟩ 1 rfl
    (by with_unfolding_all rfl)

set_option maxRecDepth 1000000 in
/-- C2 counterexample: at a concrete successful fetch the snapshot has
no "resources" key (the three records sit at top level), and the storage
record's fields are named total/used/free/usage, not
total_gb/used_gb/free_gb/usage_percent as the claim states. -/
theorem C2_counterexample :
    (get_vps_data ⟨none, 0⟩ 0 env0).1 = .ok out0 ∧
    dictGet out0 "resources" = none ∧
    dictGet out0 "storage" =
      some (OutVal.obj [("total", .num 2), ("used", .num 1), ("free", .num 1),
        ("usage", .num 50)]) :=
  ⟨by with_unfolding_all rfl, rfl, rfl⟩

/-- C2 amended: every snapshot from a fetch-backed successful
`get_vps_data` call is the flat dict with exactly the keys hostname, ip,
last_update, storage, bandwidth, memory — the three resource records at
top level under their kind names, not nested under a "resources"
mapping — and every resource record carries exactly the fields total,
used, free (the GB values) and usage (the recomputed percentage). -/
theorem C2_amended_flat_shape (st : GateState) (t : ℚ) (env : FetchEnv)
    (out : Output) (st' : GateState) (n : ℕ)
    (hempty : st.cached_data = none)
    (hok : get_vps_data st t env = (.ok out, st', n)) :
    (∃ hv iv r1 r2 r3, out =
      [("hostname", hv), ("ip", iv),
       ("last_update", OutVal.leaf (Leaf.int env.stamp)),
       ("storage", foldResource r1), ("bandwidth", foldResource r2),
       ("memory", foldResource r3)]) ∧
    ∀ r : ProcessedResource, ∃ T U F P, foldResource r =
      OutVal.obj [("total", Leaf.num T), ("used", Leaf.num U),
        ("free", Leaf.num F), ("usage", Leaf.num P)] :=
  ⟨get_vps_data_ok_shape st t env out st' n hempty hok,
   fun r => ⟨_, _, _, _, rfl⟩⟩

set_option maxRecDepth 1000000 in
/-- Witness for C2 at the concrete successful input `env0`. -/
theorem C2_amended_flat_shape_witness :
    ∃ hv iv r1 r2 r3, out0 =
      [("hostname", hv), ("ip", iv),
       ("last_update", OutVal.leaf (Leaf.int 5)),
       ("storage", foldResource r1), ("bandwidth", foldResource r2),
       ("memory", foldResource r3)] :=
  (C2_amended_flat_shape ⟨none, 0⟩ 0 env0 out0 ⟨some out0, 0⟩ 1 rfl
    (by with_unfolding_all rfl)).1

/-- C3: after a successful fetch from an empty cache at time t0 (which
makes exactly one upstream call), a second call strictly less than 60 s
later returns the identical snapshot with zero upstream calls — so the
two calls make exactly one upstream call in total — and a call 61+ s
later, with the configuration resolving, makes exactly one new upstream
call. -/
theorem C3_cache_window (st0 : GateState) (t0 t1 : ℚ) (envA envB : FetchEnv)
    (out : Output) (st1 : GateState) (n1 : ℕ)
    (hempty : st0.cached_data = none)
    (hok : get_vps_data st0 t0 envA = (.ok out, st1, n1)) :
    n1 = 1 ∧
    (t1 - t0 < 60 → get_vps_data st1 t1 envB = (.ok out, st1, 0)) ∧
    (61 ≤ t1 - t0 → ∀ c, envB.configResult = .ok c →
      (get_vps_data st1 t1 envB).2.2 = 1) := by
  rw [get_vps_data_empty st0 t0 envA hempty] at hok
  obtain ⟨hst, hn⟩ := fetchAndCache_ok st0 t0 envA out st1 n1 hok
  subst hst
  refine ⟨hn, ?_, ?_⟩
  · intro hlt
    exact get_vps_data_hit ⟨some out, t0⟩ t1 envB out rfl
      (by simpa [CACHE_DURATION] using hlt)
  · intro hge c hc
    have h60 : (CACHE_DURATION : ℚ) = 60 := rfl
    rw [get_vps_data_stale ⟨some out, t0⟩ t1 envB out rfl
      (by simp only [h60]; push_neg; linarith)]
    exact fetchAndCache_calls ⟨some out, t0⟩ t1 envB c hc

set_option maxRecDepth 1000000 in
/-- Witness for C3: a second call at 30 s is a pure cache hit returning
the identical snapshot; a call at 61 s refetches (one upstream call). -/
theorem C3_cache_window_witness :
    get_vps_data ⟨some out0, 0⟩ 30 env0 = (.ok out0, ⟨some out0, 0⟩, 0) ∧
    (get_vps_data ⟨some out0, 0⟩ 61 env0).2.2 = 1 :=
  ⟨(C3_cache_window ⟨none, 0⟩ 0 30 env0 env0 out0 ⟨some out0, 0⟩ 1 rfl
      (by with_unfolding_all rfl)).2.1 (by norm_num),
   (C3_cache_window ⟨none, 0⟩ 0 61 env0 env0 out0 ⟨some out0, 0⟩ 1 rfl
      (by with_unfolding_all rfl)).2.2 (by norm_num) cfg0 rfl⟩

/-- C7: whenever the upstream body contains a block classified into the
resource bucket whose text fails the inner four-numeric-group match, the
whole fetch errors out and the cache (entry and timestamp) is exactly as
before: no partial or whole snapshot is produced or stored. -/
theorem C7_malformed_block_aborts (st : GateState) (t : ℚ) (env : FetchEnv)
    (body : String) (hhttp : env.httpResult = .ok body)
    (hstale : st.cached_data = none ∨ ¬ t - st.last_update < CACHE_DURATION)
    (hbad : ∃ m ∈ findIter body.data,
      capGet m.1 "type" ∈ RESOURCE_TYPES ∧ mtch INNER_ITEMS m.2 = none) :
    (∃ e, (get_vps_data st t env).1 = .error e) ∧
    (get_vps_data st t env).2.1 = st := by
  have hred : get_vps_data st t env = fetchAndCache st t env := by
    rcases hstale with h | h
    · exact get_vps_data_empty st t env h
    · cases hd : st.cached_data with
      | none => exact get_vps_data_empty st t env hd
      | some d => exact get_vps_data_stale st t env d hd h
  rw [hred]
  cases henv : env.configResult with
  | error e =>
    exact ⟨⟨"Failed to fetch VPS data: " ++ e, by simp [fetchAndCache, henv]⟩,
      by simp [fetchAndCache, henv]⟩
  | ok config =>
    obtain ⟨e, he⟩ := processMatches_error_of_bad (findIter body.data) [] hbad
    have hapi : api_response (mkPostFlags config) env.httpResult = .error e := by
      rw [hhttp]
      exact he
    exact ⟨⟨"Failed to fetch VPS data: " ++ e, by simp [fetchAndCache, henv, hapi]⟩,
      by simp [fetchAndCache, henv, hapi]⟩

set_option maxRecDepth 1000000 in
/-- Witness for C7 at the body `<hdd>1,2,x,4</hdd>` (non-numeric third
group): the fetch errors and the empty cache state is unchanged. -/
theorem C7_malformed_block_aborts_witness :
    (∃ e, (get_vps_data ⟨none, 0⟩ 0 envMal).1 = .error e) ∧
    (get_vps_data ⟨none, 0⟩ 0 envMal).2.1 = ⟨none, 0⟩ :=
  C7_malformed_block_aborts ⟨none, 0⟩ 0 envMal "<hdd>1,2,x,4</hdd>" rfl
    (Or.inl rfl) (of_decide_eq_true (by with_unfolding_all rfl))

/-- C8: with the cache empty or stale, every fetch error reaches the
caller of `get_vps_data` wrapped only in the fixed RuntimeError prefixes
with its message preserved, the cache state is never touched, and no
retry happens (at most one upstream call): (1) an HTTP-level failure —
network failure, timeout, non-success status — surfaces as
`API request failed: ...` after exactly one upstream call; (2) a
configuration failure surfaces as-is after zero upstream calls; (3) a
parse failure (malformed upstream data) surfaces as-is after exactly one
upstream call; and (4) whatever error `get_vps_data` reports, the
`/metrics` handler returns it verbatim as `# ERROR: ...` with
status 500. -/
theorem C8_error_propagation (st : GateState) (t : ℚ) (env : FetchEnv)
    (hstale : st.cached_data = none ∨ ¬ t - st.last_update < CACHE_DURATION) :
    (∀ m c, env.configResult = .ok c → env.httpResult = .error m →
      get_vps_data st t env =
        (.error ("Failed to fetch VPS data: " ++ ("API request failed: " ++ m)),
         st, 1)) ∧
    (∀ m, env.configResult = .error m →
      get_vps_data st t env = (.error ("Failed to fetch VPS data: " ++ m), st, 0)) ∧
    (∀ c body e, env.configResult = .ok c → env.httpResult = .ok body →
      processMatches (findIter body.data) [] = .error e →
      get_vps_data st t env = (.error ("Failed to fetch VPS data: " ++ e), st, 1)) ∧
    (∀ e, (get_vps_data st t env).1 = .error e →
      (metrics st t env).1 = ("# ERROR: " ++ e, 500)) := by
  have hred : get_vps_data st t env = fetchAndCache st t env := by
    rcases hstale with h | h
    · exact get_vps_data_empty st t env h
    · cases hd : st.cached_data with
      | none => exact get_vps_data_empty st t env hd
      | some d => exact get_vps_data_stale st t env d hd h
  refine ⟨?_, ?_, ?_, ?_⟩
  · intro m c hc hm
    rw [hred]
    have hapi : api_response (mkPostFlags c) env.httpResult =
        .error ("API request failed: " ++ m) := by
      rw [hm]
      rfl
    simp [fetchAndCache, hc, hapi]
  · intro m hm
    rw [hred]
    simp [fetchAndCache, hm]
  · intro c body e hc hb hp
    rw [hred]
    have hapi : api_response (mkPostFlags c) env.httpResult = .error e := by
      rw [hb]
      exact hp
    simp [fetchAndCache, hc, hapi]
  · intro e he
    rcases hgv : get_vps_data st t env with ⟨r, st2, n2⟩
    rw [hgv] at he
    simp only at he
    subst he
    simp [metrics, hgv]

/-- Witness for C8: an HTTP failure with message `boom` reaches both the
caller and the metrics endpoint wrapped in the fixed prefixes, with the
empty cache untouched and one upstream call. -/
theorem C8_error_propagation_witness :
    get_vps_data ⟨none, 0⟩ 0 envE1 =
      (.error ("Failed to fetch VPS data: " ++ ("API request failed: " ++ "boom")),
       ⟨none, 0⟩, 1) ∧
    (metrics ⟨none, 0⟩ 0 envE1).1 =
      ("# ERROR: " ++ ("Failed to fetch VPS data: " ++ ("API request failed: " ++ "boom")),
       500) := by
  have h := C8_error_propagation ⟨none, 0⟩ 0 envE1 (Or.inl rfl)
  have h1 := h.1 "boom" cfg0 rfl rfl
  exact ⟨h1, h.2.2.2 _ (by rw [h1])⟩

/-- C9 counterexample: the claim promises that N concurrent callers
against an empty cache produce exactly one upstream call in total and
observe one shared result or one shared error.  When the fetch fails,
the serialized callers each retry: two callers produce two upstream
calls and two different errors. -/
theorem C9_counterexample :
    runCalls ⟨none, 0⟩ [(0, envB1), (0, envB2)] =
      ([.error ("Failed to fetch VPS data: " ++
          ("API request failed: " ++ "connection timed out")),
        .error ("Failed to fetch VPS data: " ++
          ("API request failed: " ++ "502 Bad Gateway"))],
       ⟨none, 0⟩, 2) ∧
    (2 : ℕ) ≠ 1 ∧
    ("Failed to fetch VPS data: " ++ ("API request failed: " ++ "connection timed out")
      : String) ≠
      "Failed to fetch VPS data: " ++ ("API request failed: " ++ "502 Bad Gateway") :=
  ⟨rfl, by decide, by decide⟩

/-- C9 amended: the freshness check, conditional fetch and cache
replacement run as one critical section under the single lock, so
concurrent callers are serialized.  When the first caller's fetch
succeeds, exactly one upstream call is made in total and every later
caller inside the 60 s window observes that same snapshot with the cache
entry unchanged.  (When the fetch fails, however, each serialized caller
performs its own upstream call and may observe a different error — see
the counterexample.) -/
theorem C9_amended_single_flight (st0 : GateState) (t0 : ℚ) (env : FetchEnv)
    (rest : List (ℚ × FetchEnv)) (out : Output) (st1 : GateState) (n1 : ℕ)
    (hempty : st0.cached_data = none)
    (hok : get_vps_data st0 t0 env = (.ok out, st1, n1))
    (hwin : ∀ p ∈ rest, p.1 - t0 < CACHE_DURATION) :
    runCalls st0 ((t0, env) :: rest) =
      ((.ok out) :: (rest.map fun _ => .ok out), ⟨some out, t0⟩, 1) := by
  have hok2 := hok
  rw [get_vps_data_empty st0 t0 env hempty] at hok2
  obtain ⟨hst, hn⟩ := fetchAndCache_ok st0 t0 env out st1 n1 hok2
  subst hst
  subst hn
  simp only [runCalls]
  rw [hok, runCalls_cached out t0 rest hwin]
  simp

set_option maxRecDepth 1000000 in
/-- Witness for C9 amended: two serialized callers at 0 s and 30 s share
the single fetched snapshot with one upstream call in total. -/
theorem C9_amended_single_flight_witness :
    runCalls ⟨none, 0⟩ [(0, env0), (30, env0)] =
      ([.ok out0, .ok out0], ⟨some out0, 0⟩, 1) := by
  have h := C9_amended_single_flight ⟨none, 0⟩ 0 env0 [(30, env0)] out0
    ⟨some out0, 0⟩ 1 rfl (by with_unfolding_all rfl)
    (of_decide_eq_true (by with_unfolding_all rfl))
  simpa using h

set_option maxRecDepth 1000000 in
/-- C10: the inner resource-block pattern captures only (possibly empty)
unsigned digit runs — no sign, decimal point, exponent or whitespace can
appear in any of the four groups — so every total/used/free value that
`process_resource_data` successfully converts is a non-negative integer
(the ResourceSample non-negativity invariant holds by construction), and
a resource block carrying a fractional or a negative number fails the
inner match, which aborts the parse with an error. -/
theorem C10_digit_invariant :
    (∀ s caps rem, mtch INNER_ITEMS s = some (caps, rem) →
      ∀ g ∈ (["total", "used", "free", "per"] : List String),
        ∀ c ∈ (capGet caps g).data, c.isDigit = true) ∧
    (∀ data r, process_resource_data data = .ok r →
      (∃ a : ℕ, r.total = (a : ℚ)) ∧ (∃ b : ℕ, r.used = (b : ℚ)) ∧
        ∃ d : ℕ, r.free = (d : ℚ)) ∧
    api_response (mkPostFlags cfg0) (.ok "<hdd>12.5,1,1,0</hdd>") =
      .error errNoGroupdict ∧
    api_response (mkPostFlags cfg0) (.ok "<hdd>-12,1,1,0</hdd>") =
      .error errNoGroupdict := by
  refine ⟨?_, ?_, by with_unfolding_all rfl, by with_unfolding_all rfl⟩
  · have hOK : itemsDigitOK ["total", "used", "free", "per"] INNER_ITEMS := by
      intro g cls acc hm hn
      simp only [INNER_ITEMS, List.mem_cons, List.not_mem_nil, or_false] at hm
      simp only [Item.star.injEq, Option.some.injEq, reduceCtorEq, false_and,
        false_or, or_false] at hm
      rcases hm with ⟨hg, hcls, hacc⟩ | ⟨hg, hcls, hacc⟩ | ⟨hg, hcls, hacc⟩ |
        ⟨hg, hcls, hacc⟩ <;>
        exact ⟨hcls, by rw [hacc]; intro c hc; cases hc⟩
    intro s caps rem h g hg c hc
    cases hf : caps.find? fun p => p.1 = g with
    | none =>
      rw [show capGet caps g = "" by simp [capGet, hf]] at hc
      cases hc
    | some p =>
      have hmem : p ∈ caps := List.mem_of_find?_eq_some hf
      have hpg : p.1 = g := by
        have := List.find?_some hf
        simpa using this
      have hcap : capGet caps g = p.2 := by
        simp [capGet, hf]
      rw [hcap] at hc
      exact mtch_digit_caps ["total", "used", "free", "per"] INNER_ITEMS s hOK
        caps rem h p.1 p.2 (by simpa using hmem) (hpg ▸ hg) c hc
  · intro data r hr
    unfold process_resource_data at hr
    cases hu : pyFloat (capGet data "used") with
    | error e =>
      rw [hu, exceptBind_error] at hr
      cases hr
    | ok U =>
    cases ht : pyFloat (capGet data "total") with
    | error e =>
      rw [hu, exceptBind_ok, ht] at hr
      simp only [exceptBind_error] at hr
      cases hr
    | ok T =>
    simp only [hu, ht, exceptBind_ok] at hr
    cases hf : pyFloat (capGet data "free") with
    | error e =>
      split at hr
      · split at hr
        · simp only [exceptBind_error] at hr
          cases hr
        · simp only [hf, exceptBind_error, exceptBind_ok] at hr
          cases hr
      · simp only [hf, exceptBind_error, exceptBind_ok] at hr
        cases hr
    | ok F =>
      split at hr
      · split at hr
        · simp only [exceptBind_error] at hr
          cases hr
        · simp only [hf, exceptBind_ok, pure, Except.pure] at hr
          injection hr with hr
          rw [← hr]
          exact ⟨pyFloat_natCast _ _ ht, pyFloat_natCast _ _ hu,
            pyFloat_natCast _ _ hf⟩
      · simp only [hf, exceptBind_ok, pure, Except.pure] at hr
        injection hr with hr
        rw [← hr]
        exact ⟨pyFloat_natCast _ _ ht, pyFloat_natCast _ _ hu,
          pyFloat_natCast _ _ hf⟩

set_option maxRecDepth 1000000 in
/-- Witness for C10: the integrality of `procA` (via the second part at
a concrete input) and the aborting fractional block (via the third). -/
theorem C10_digit_invariant_witness :
    (∃ a : ℕ, procA.total = (a : ℚ)) ∧
    api_response (mkPostFlags cfg0) (.ok "<hdd>12.5,1,1,0</hdd>") =
      .error errNoGroupdict :=
  ⟨(C10_digit_invariant.2.1 capsA procA (by with_unfolding_all rfl)).1,
   C10_digit_invariant.2.2.1⟩

end VpsMonitor
